import Mathlib

set_option maxRecDepth 8000
set_option linter.unusedVariables false
set_option linter.unnecessarySimpa false

/-!
Shallow embedding of the `linkedin-agent-marketplace` repository.

Sources embedded:
* `src/linkedin_agent/llm_service.py`   — prompt construction, provider dispatch,
  note post-processing (`note.strip()[:300]`);
* `src/linkedin_agent/linkedin_service.py` — `_authenticate_linkedin`,
  `send_connection_request`, `send_message` (Playwright automation);
* `src/linkedin_agent/executor.py`      — the SSE-producing `execute` coroutine;
* `src/openclaw-skill/linkedin_automation.py` — the local-execution variants of
  `send_connection_request` and `send_message`.

Modelling conventions:
* Python strings are `List Char`; `None`-able values are `Option`;
  Python truthiness of an optional string (`None` and `""` are falsy) is `truthy`.
* External collaborators (the Playwright DOM, the LLM HTTP adapters, the regex
  helpers that wrap the `re` module) are oracles supplied in environment
  records; every DOM interaction the code performs is recorded in an explicit
  trace of `DomAction`s, and network calls in a trace of `ExtCall`s.
* Python exceptions are explicit: a function that can raise returns
  `Except`; a bare `except` that converts the fault into a result dictionary
  is a `match` on that `Except`.
-/

/-- Python strings are modelled as lists of characters. -/
abbrev Str := List Char

/-- Embed a Lean string literal into the model. -/
def lit (s : String) : Str := s.toList

/-- Python truthiness of an optional string: `None` and `""` are falsy. -/
def truthy : Option Str → Bool
  | none => false
  | some s => !s.isEmpty

/-- Python `needle in haystack` substring test. -/
def pyIn (needle : Str) : Str → Bool
  | [] => needle.isEmpty
  | c :: t => needle.isPrefixOf (c :: t) || pyIn needle t

/-- Python `str.lower()` (ASCII-relevant part). -/
def pyLower (s : Str) : Str := s.map Char.toLower

/-- The characters removed by Python `str.strip()` with no argument
(ASCII whitespace: space, tab, newline, carriage return, vertical tab, form feed). -/
def isPyWhitespace (c : Char) : Bool :=
  c = ' ' || c = '\t' || c = '\n' || c = '\r' || c = Char.ofNat 11 || c = Char.ofNat 12

/-- Python `s.strip()`: drop leading and trailing whitespace. -/
def pyStrip (s : Str) : Str :=
  ((s.dropWhile isPyWhitespace).reverse.dropWhile isPyWhitespace).reverse

/-- Python `s[:300]`: the truncation step of the note post-processing
(`llm_service.py` line 85 and the fill sites that re-apply the cap). -/
def truncate300 (s : Str) : Str := s.take 300

/-- The post-processing applied by `generate_personalized_note` to the raw
provider output (`llm_service.py` line 85): `note.strip()[:300]`. -/
def postprocess_note (s : Str) : Str := truncate300 (pyStrip s)

/-- The truncated note never exceeds 300 characters. -/
theorem postprocess_note_length_le (s : Str) : (postprocess_note s).length ≤ 300 := by
  simp [postprocess_note, truncate300]

/-! ## Browser automation model (`linkedin_service.py`) -/

/-- Exceptions that the Playwright layer can raise: `PlaywrightTimeout`
(imported as `TimeoutError`) or any other exception, carrying `str(e)`. -/
inductive PwExn
  | timeout
  | other (msg : Str)
deriving DecidableEq

/-- The result dictionaries returned by the service layer:
`{"success": bool, "error": str (if failed)}`. -/
structure ActionResult where
  success : Bool
  error : Option Str
deriving DecidableEq

/-- The credentials dictionary packaged by the executor (`executor.py` lines
71–76) and consumed by `_authenticate_linkedin` via `credentials.get(...)`. -/
structure Creds where
  method : Option Str
  session_cookie : Option Str
  email : Option Str
  password : Option Str
deriving DecidableEq

/-- One observable browser interaction, in program order.  `query` records a
`page.query_selector` lookup, `fill`/`click` record DOM writes, `goto`,
`waitForUrl`, `waitNetworkIdle`, `waitTimeout` record navigation and waits,
`addCookies` records the cookie injection, `browserClose` the `finally` block. -/
inductive DomAction
  | goto (url : Str)
  | waitNetworkIdle
  | waitForUrl (pat : Str)
  | waitTimeout (ms : Nat)
  | query (sel : Str)
  | click (sel : Str)
  | fill (sel : Str) (text : Str)
  | addCookies
  | browserClose
deriving DecidableEq

/-- Selector literals used by `linkedin_service.py` and
`linkedin_automation.py`. -/
def selConnect : Str := lit "button:has-text(\"Connect\")"

def selPending : Str := lit "button:has-text(\"Pending\")"

def selMessageBtn : Str := lit "button:has-text(\"Message\")"

def selAddNote : Str := lit "button:has-text(\"Add a note\")"

def selNoteField : Str := lit "textarea[name=\"message\"]"

/-- The same `textarea[name="message"]` selector, as used by the message-run
fallback lookup. -/
def selTextareaM : Str := lit "textarea[name=\"message\"]"

def selSendAria : Str := lit "button[aria-label*=\"Send\"]"

def selSendText : Str := lit "button:has-text(\"Send\")"

def selContentEditable : Str := lit "div[contenteditable=\"true\"]"

def selSubmitBtn : Str := lit "button[type=\"submit\"]"

def selSessionKey : Str := lit "input[name=\"session_key\"]"

def selSessionPassword : Str := lit "input[name=\"session_password\"]"

def feedUrl : Str := lit "https://www.linkedin.com/feed/"

def loginUrl : Str := lit "https://www.linkedin.com/login"

def feedUrlPattern : Str := lit "https://www.linkedin.com/feed/*"

/-- Error and status strings of the service layer. -/
def errSessionCookieMissing : Str := lit "Session cookie missing"

def errCookieExpired : Str :=
  lit "Session cookie expired or invalid. Please provide a fresh cookie."

def errEmailPasswordRequired : Str := lit "Email and password required"

def errSecurityCheckpoint : Str :=
  lit "LinkedIn security checkpoint detected. Please use session cookie authentication instead."

def errAlreadySent : Str := lit "Connection request already sent"

def errAlreadyConnected : Str := lit "Already connected with this person"

def errConnectNotFound : Str := lit "Connect button not found on profile"

def errSendNotFound : Str := lit "Send button not found"

def errMessageBtnNotFound : Str :=
  lit "Message button not found. Are you connected with this person?"

def errMessageInputNotFound : Str := lit "Message input field not found"

def errOperationTimeout : Str := lit "LinkedIn operation timeout"

/-- The oracle describing what the browser reports during authentication:
the location after navigating to the feed with an injected cookie, the outcome
of `wait_for_url` after a password login, and the location inspected when that
wait raises. -/
structure AuthEnv where
  cookieNavUrl : Str
  loginWait : Except PwExn Unit
  postLoginUrl : Str

/-- `_authenticate_linkedin` (`linkedin_service.py` lines 9–78).  Returns the
result dictionary, or re-raises the exception swallowed by the bare `except`
when the post-timeout location is not a checkpoint/challenge page; the second
component is the trace of browser interactions performed. -/
def _authenticate_linkedin (env : AuthEnv) (credentials : Creds) :
    Except PwExn ActionResult × List DomAction :=
  let auth_method := credentials.method.getD (lit "password")
  if auth_method = lit "cookie" then
    if truthy credentials.session_cookie = false then
      (.ok ⟨false, some errSessionCookieMissing⟩, [])
    else
      let tr := [DomAction.addCookies, DomAction.goto feedUrl, DomAction.waitNetworkIdle]
      if pyIn (lit "login") env.cookieNavUrl || pyIn (lit "checkpoint") env.cookieNavUrl then
        (.ok ⟨false, some errCookieExpired⟩, tr)
      else
        (.ok ⟨true, none⟩, tr)
  else
    if !truthy credentials.email || !truthy credentials.password then
      (.ok ⟨false, some errEmailPasswordRequired⟩, [])
    else
      let tr := [DomAction.goto loginUrl,
                 DomAction.fill selSessionKey (credentials.email.getD []),
                 DomAction.fill selSessionPassword (credentials.password.getD []),
                 DomAction.click selSubmitBtn,
                 DomAction.waitForUrl feedUrlPattern]
      match env.loginWait with
      | .ok _ => (.ok ⟨true, none⟩, tr)
      | .error e =>
        if pyIn (lit "checkpoint") env.postLoginUrl || pyIn (lit "challenge") env.postLoginUrl then
          (.ok ⟨false, some errSecurityCheckpoint⟩, tr)
        else
          (.error e, tr)

/-- The two `except` clauses wrapping both service functions
(`linkedin_service.py` lines 172–175 and 256–259). -/
def svc_exception_result : PwExn → ActionResult
  | .timeout => ⟨false, some errOperationTimeout⟩
  | .other m => ⟨false, some (lit "LinkedIn automation error: " ++ m)⟩

/-- Which controls the target profile page reports to `query_selector`,
as probed by a connect run. -/
structure ConnectPage where
  hasConnect : Bool
  hasPending : Bool
  hasMessageBtn : Bool
  hasAddNote : Bool
  hasNoteField : Bool
  hasSendAria : Bool
  hasSendText : Bool
deriving DecidableEq

/-- Which controls the target profile page reports to `query_selector`,
as probed by a message run. -/
structure MessagePage where
  hasMessageBtn : Bool
  hasContentEditable : Bool
  hasTextarea : Bool
  hasSubmitBtn : Bool
  hasSendText : Bool
deriving DecidableEq

/-- Environment of a remote-execution connect run. -/
structure ConnectEnv where
  auth : AuthEnv
  page : ConnectPage

/-- Environment of a remote-execution message run. -/
structure MsgEnv where
  auth : AuthEnv
  page : MessagePage

/-- `send_connection_request` (`linkedin_service.py` lines 81–175). -/
def send_connection_request (env : ConnectEnv) (credentials : Creds) (profile_url : Str)
    (note : Option Str) : ActionResult × List DomAction :=
  match _authenticate_linkedin env.auth credentials with
  | (.error e, tr) => (svc_exception_result e, tr ++ [DomAction.browserClose])
  | (.ok auth_result, tr) =>
    if auth_result.success = false then
      (auth_result, tr ++ [DomAction.browserClose])
    else
      let tr := tr ++ [DomAction.goto profile_url, DomAction.waitNetworkIdle,
                       DomAction.query selConnect]
      if env.page.hasConnect = false then
        let tr := tr ++ [DomAction.query selPending]
        if env.page.hasPending then
          (⟨false, some errAlreadySent⟩, tr ++ [DomAction.browserClose])
        else
          let tr := tr ++ [DomAction.query selMessageBtn]
          if env.page.hasMessageBtn then
            (⟨false, some errAlreadyConnected⟩, tr ++ [DomAction.browserClose])
          else
            (⟨false, some errConnectNotFound⟩, tr ++ [DomAction.browserClose])
      else
        let tr := tr ++ [DomAction.click selConnect, DomAction.waitTimeout 2000]
        let tr := tr ++
          (if truthy note then
            [DomAction.query selAddNote] ++
            (if env.page.hasAddNote then
              [DomAction.click selAddNote, DomAction.waitTimeout 1000,
               DomAction.query selNoteField] ++
              (if env.page.hasNoteField then
                [DomAction.fill selNoteField ((note.getD []).take 300),
                 DomAction.waitTimeout 1000]
              else [])
            else [])
          else [])
        let tr := tr ++ [DomAction.query selSendAria]
        if env.page.hasSendAria then
          (⟨true, none⟩,
           tr ++ [DomAction.click selSendAria, DomAction.waitTimeout 3000, DomAction.browserClose])
        else
          let tr := tr ++ [DomAction.query selSendText]
          if env.page.hasSendText then
            (⟨true, none⟩,
             tr ++ [DomAction.click selSendText, DomAction.waitTimeout 3000, DomAction.browserClose])
          else
            (⟨false, some errSendNotFound⟩, tr ++ [DomAction.browserClose])

/-- `send_message` (`linkedin_service.py` lines 178–259). -/
def send_message (env : MsgEnv) (credentials : Creds) (profile_url : Str) (message : Str) :
    ActionResult × List DomAction :=
  match _authenticate_linkedin env.auth credentials with
  | (.error e, tr) => (svc_exception_result e, tr ++ [DomAction.browserClose])
  | (.ok auth_result, tr) =>
    if auth_result.success = false then
      (auth_result, tr ++ [DomAction.browserClose])
    else
      let tr := tr ++ [DomAction.goto profile_url, DomAction.waitNetworkIdle,
                       DomAction.query selMessageBtn]
      if env.page.hasMessageBtn = false then
        (⟨false, some errMessageBtnNotFound⟩, tr ++ [DomAction.browserClose])
      else
        let tr := tr ++ [DomAction.click selMessageBtn, DomAction.waitTimeout 2000,
                         DomAction.query selContentEditable]
        let tr := tr ++ (if env.page.hasContentEditable then [] else [DomAction.query selTextareaM])
        match (if env.page.hasContentEditable then some selContentEditable
               else if env.page.hasTextarea then some selTextareaM else none) with
        | some fieldSel =>
          let tr := tr ++ [DomAction.fill fieldSel message, DomAction.waitTimeout 1000,
                           DomAction.query selSubmitBtn]
          if env.page.hasSubmitBtn then
            (⟨true, none⟩,
             tr ++ [DomAction.click selSubmitBtn, DomAction.waitTimeout 3000, DomAction.browserClose])
          else
            let tr := tr ++ [DomAction.query selSendText]
            if env.page.hasSendText then
              (⟨true, none⟩,
               tr ++ [DomAction.click selSendText, DomAction.waitTimeout 3000, DomAction.browserClose])
            else
              (⟨false, some errSendNotFound⟩, tr ++ [DomAction.browserClose])
        | none =>
          (⟨false, some errMessageInputNotFound⟩, tr ++ [DomAction.browserClose])

/-! ## Split-execution variants (`src/openclaw-skill/linkedin_automation.py`) -/

namespace OpenClaw

/-- Environment of a local connect run: the location reported after navigating
to the feed (the logged-in check) and the page's controls. -/
structure OcConnectEnv where
  feedNavUrl : Str
  page : ConnectPage

/-- Environment of a local message run. -/
structure OcMsgEnv where
  feedNavUrl : Str
  page : MessagePage

def errNotLoggedInConnect : Str :=
  lit "Not logged into LinkedIn. Please login in your browser first."

def errNotLoggedInMsg : Str := lit "Not logged into LinkedIn"

/-- `send_connection_request` (`linkedin_automation.py` lines 21–117).
Authentication is replaced by the user's own browser session: navigate to the
feed and inspect the resulting location.  The DOM interaction sequence is
otherwise identical to the remote-execution variant.  (The surrounding
`except` clauses are unreachable in this model because no modelled step
raises; navigation is assumed to complete.) -/
def send_connection_request (env : OcConnectEnv) (profile_url : Str) (note : Option Str) :
    ActionResult × List DomAction :=
  let tr := [DomAction.goto feedUrl, DomAction.waitNetworkIdle]
  if pyIn (lit "login") env.feedNavUrl || pyIn (lit "checkpoint") env.feedNavUrl then
    (⟨false, some errNotLoggedInConnect⟩, tr ++ [DomAction.browserClose])
  else
    let tr := tr ++ [DomAction.goto profile_url, DomAction.waitNetworkIdle,
                     DomAction.query selConnect]
    if env.page.hasConnect = false then
      let tr := tr ++ [DomAction.query selPending]
      if env.page.hasPending then
        (⟨false, some errAlreadySent⟩, tr ++ [DomAction.browserClose])
      else
        let tr := tr ++ [DomAction.query selMessageBtn]
        if env.page.hasMessageBtn then
          (⟨false, some errAlreadyConnected⟩, tr ++ [DomAction.browserClose])
        else
          (⟨false, some errConnectNotFound⟩, tr ++ [DomAction.browserClose])
    else
      let tr := tr ++ [DomAction.click selConnect, DomAction.waitTimeout 2000]
      let tr := tr ++
        (if truthy note then
          [DomAction.query selAddNote] ++
          (if env.page.hasAddNote then
            [DomAction.click selAddNote, DomAction.waitTimeout 1000,
             DomAction.query selNoteField] ++
            (if env.page.hasNoteField then
              [DomAction.fill selNoteField ((note.getD []).take 300),
               DomAction.waitTimeout 1000]
            else [])
          else [])
        else [])
      let tr := tr ++ [DomAction.query selSendAria]
      if env.page.hasSendAria then
        (⟨true, none⟩,
         tr ++ [DomAction.click selSendAria, DomAction.waitTimeout 3000, DomAction.browserClose])
      else
        let tr := tr ++ [DomAction.query selSendText]
        if env.page.hasSendText then
          (⟨true, none⟩,
           tr ++ [DomAction.click selSendText, DomAction.waitTimeout 3000, DomAction.browserClose])
        else
          (⟨false, some errSendNotFound⟩, tr ++ [DomAction.browserClose])

/-- `send_message` (`linkedin_automation.py` lines 120–194).  The logged-in
check inspects only `"login" in page.url`. -/
def send_message (env : OcMsgEnv) (profile_url : Str) (message : Str) :
    ActionResult × List DomAction :=
  let tr := [DomAction.goto feedUrl, DomAction.waitNetworkIdle]
  if pyIn (lit "login") env.feedNavUrl then
    (⟨false, some errNotLoggedInMsg⟩, tr ++ [DomAction.browserClose])
  else
    let tr := tr ++ [DomAction.goto profile_url, DomAction.waitNetworkIdle,
                     DomAction.query selMessageBtn]
    if env.page.hasMessageBtn = false then
      (⟨false, some errMessageBtnNotFound⟩, tr ++ [DomAction.browserClose])
    else
      let tr := tr ++ [DomAction.click selMessageBtn, DomAction.waitTimeout 2000,
                       DomAction.query selContentEditable]
      let tr := tr ++ (if env.page.hasContentEditable then [] else [DomAction.query selTextareaM])
      match (if env.page.hasContentEditable then some selContentEditable
             else if env.page.hasTextarea then some selTextareaM else none) with
      | some fieldSel =>
        let tr := tr ++ [DomAction.fill fieldSel message, DomAction.waitTimeout 1000,
                         DomAction.query selSubmitBtn]
        if env.page.hasSubmitBtn then
          (⟨true, none⟩,
           tr ++ [DomAction.click selSubmitBtn, DomAction.waitTimeout 3000, DomAction.browserClose])
        else
          let tr := tr ++ [DomAction.query selSendText]
          if env.page.hasSendText then
            (⟨true, none⟩,
             tr ++ [DomAction.click selSendText, DomAction.waitTimeout 3000, DomAction.browserClose])
          else
            (⟨false, some errSendNotFound⟩, tr ++ [DomAction.browserClose])
      | none =>
        (⟨false, some errMessageInputNotFound⟩, tr ++ [DomAction.browserClose])

end OpenClaw

/-! ## LLM personalization client (`src/linkedin_agent/llm_service.py`) -/

/-- External activity of a run that the executor can cause: an HTTP request to
an LLM provider, or one browser interaction performed by the service layer. -/
inductive ExtCall
  | llmHttp
  | dom (a : DomAction)
deriving DecidableEq

/-- `llm_config` as assembled by the executor. -/
structure LlmConfig where
  provider : Str
  model : Str
  api_key : Str
deriving DecidableEq

/-- The prospect dictionary; `get` with a default is `Option.getD`. -/
structure Prospect where
  full_name : Option Str
  title : Option Str
  company : Option Str
  linkedin_url : Option Str
  base_message : Option Str
deriving DecidableEq

/-- System prompt for the personalize-existing-message template
(`llm_service.py` lines 43–45). -/
def systemPromptPersonalize : Str :=
  lit "You are a LinkedIn outreach expert. Personalize the following message for the prospect.\nKeep it professional, warm, and under 300 characters (LinkedIn connection note limit).\nDO NOT add greetings like \"Hi [Name]\" - just the core message."

/-- User prompt for the personalize-existing-message template
(`llm_service.py` lines 47–53). -/
def userPromptPersonalize (prospect : Prospect) : Str :=
  lit "Prospect: " ++ prospect.full_name.getD (lit "Unknown") ++
  lit "\nTitle: " ++ prospect.title.getD (lit "Unknown") ++
  lit "\nCompany: " ++ prospect.company.getD (lit "Unknown") ++
  lit "\n\nBase message: " ++ prospect.base_message.getD [] ++
  lit "\n\nPersonalize this message for the prospect above. Keep under 300 characters."

/-- System prompt for the compose-from-scratch template
(`llm_service.py` lines 57–64). -/
def systemPromptScratch : Str :=
  lit "You are a LinkedIn outreach expert. Write a personalized connection request note.\nRequirements:\n- Professional and warm tone\n- Reference their role/company\n- Mention a genuine reason to connect\n- Max 300 characters (LinkedIn limit)\n- NO greetings like \"Hi [Name]\" - just the core message\n- NO placeholders like [Your Name] or [Your Company]"

/-- User prompt for the compose-from-scratch template
(`llm_service.py` lines 66–72). -/
def userPromptScratch (prospect : Prospect) : Str :=
  lit "Write a personalized LinkedIn connection note for:\n\nName: " ++
  prospect.full_name.getD (lit "this person") ++
  lit "\nTitle: " ++ prospect.title.getD (lit "Unknown") ++
  lit "\nCompany: " ++ prospect.company.getD (lit "Unknown") ++
  lit "\n\nGenerate a warm, professional note (max 300 chars)."

/-- Oracle for the three provider adapters `_call_anthropic`, `_call_openai`
and `_call_google`.  Each is an HTTP request/response pair outside the
analyzed program; an adapter takes (api_key, model, system, user) and either
returns the extracted text or raises a `ValueError` carrying a message, which
is exactly the observable behaviour of the Python adapters. -/
structure LlmEnv where
  anthropic : Str → Str → Str → Str → Except Str Str
  openai : Str → Str → Str → Str → Except Str Str
  google : Str → Str → Str → Str → Except Str Str

/-- `generate_personalized_note` (`llm_service.py` lines 10–85): build the
prompt pair, dispatch on the provider tag (an unrecognized tag raises
`ValueError` before any network call), then post-process the provider output
with `note.strip()[:300]`.  The second component records network activity. -/
def generate_personalized_note (env : LlmEnv) (llm_config : LlmConfig) (prospect : Prospect) :
    Except Str Str × List ExtCall :=
  let provider := llm_config.provider
  let prompts : Str × Str :=
    if truthy prospect.base_message then
      (systemPromptPersonalize, userPromptPersonalize prospect)
    else
      (systemPromptScratch, userPromptScratch prospect)
  let callRes : Except Str Str × List ExtCall :=
    if provider = lit "anthropic" then
      (env.anthropic llm_config.api_key llm_config.model prompts.1 prompts.2, [ExtCall.llmHttp])
    else if provider = lit "openai" then
      (env.openai llm_config.api_key llm_config.model prompts.1 prompts.2, [ExtCall.llmHttp])
    else if provider = lit "google" then
      (env.google llm_config.api_key llm_config.model prompts.1 prompts.2, [ExtCall.llmHttp])
    else
      (.error (lit "Unknown LLM provider: " ++ provider), [])
  match callRes with
  | (.error e, c) => (.error e, c)
  | (.ok note, c) => (.ok (postprocess_note note), c)

/-! ## Executor (`src/linkedin_agent/executor.py`) -/

/-- The `keys` dictionary supplied per invocation; a missing key is `none`. -/
structure Keys where
  LINKEDIN_SESSION_COOKIE : Option Str
  LINKEDIN_EMAIL : Option Str
  LINKEDIN_PASSWORD : Option Str
  LLM_API_KEY : Option Str
  LLM_PROVIDER : Option Str
  LLM_MODEL : Option Str
deriving DecidableEq

/-- The `options` dictionary; a missing entry is `none`. -/
structure ExecOptions where
  action : Option Str
  personalize : Option Bool
  full_name : Option Str
  title : Option Str
  company : Option Str
  message_text : Option Str
deriving DecidableEq

/-- `options or {}`: the empty options dictionary. -/
def emptyOptions : ExecOptions := ⟨none, none, none, none, none, none⟩

/-- Modelled from the spec: the terminal `result` payload of §6 — the
structured object passed to `sse_event("result", ...)`, whose serialization
lives in `app.core.sse`, outside the analyzed sources.  The `connect` form
carries `linkedin_url`, `personalized_note` and `message`; the `message` form
carries `linkedin_url`, `message` and `status`. -/
inductive ResultPayload
  | connect (linkedin_url : Str) (personalized_note : Option Str) (message : Str)
  | message (linkedin_url : Str) (message : Str) (statusLine : Str)
deriving DecidableEq

/-- Modelled from the spec: the progress-stream events of §6 produced by
`app.core.sse.sse_event` / `sse_error`, which are imported by the executor but
are not part of the analyzed sources.  `sse_event("status", m)` is `status m`,
`sse_event("result", p)` is `result p`, and `sse_error m` is `error m`. -/
inductive Event
  | status (msg : Str)
  | result (payload : ResultPayload)
  | error (msg : Str)
deriving DecidableEq

/-- Everything one `execute` invocation emits and does: the ordered event
stream, the ordered external activity (LLM HTTP calls and browser
interactions), and the credentials dictionary it packaged (if it got that
far). -/
structure RunOutput where
  events : List Event
  calls : List ExtCall
  credsUsed : Option Creds
deriving DecidableEq

/-- The oracle environment of one `execute` invocation.
`extract_linkedin_url` and `extract_name_from_prompt` stand for the pure
regex helpers `_extract_linkedin_url` / `_extract_name_from_prompt`
(`executor.py` lines 195–208), whose pattern matching is delegated to the
external `re` module; all claims quantify over their results. -/
structure ExecEnv where
  extract_linkedin_url : Str → Option Str
  extract_name_from_prompt : Str → Str
  llm : LlmEnv
  connect : ConnectEnv
  msg : MsgEnv

/-- `_default_model` (`executor.py` lines 211–218). -/
def _default_model (provider : Str) : Str :=
  if provider = lit "anthropic" then lit "claude-sonnet-4-5"
  else if provider = lit "openai" then lit "gpt-4o-mini"
  else if provider = lit "google" then lit "gemini-2.0-flash-exp"
  else lit "gemini-2.0-flash-exp"

/-- Python `a or b` on strings (used for `full_name or linkedin_url`). -/
def pyOrStr (a b : Str) : Str := if a.isEmpty then b else a

def errAuthMissing : Str :=
  lit "LinkedIn authentication missing. Provide either:\n1. LINKEDIN_SESSION_COOKIE (recommended - no security checkpoints)\n2. LINKEDIN_EMAIL + LINKEDIN_PASSWORD (may trigger security verification)"

def errLlmKeyMissing : Str := lit "LLM API key missing (LLM_API_KEY)"

def statusPasswordWarn : Str :=
  lit "⚠️ Using password auth - may encounter security checkpoint. Consider using session cookie instead."

def errNoUrl : Str :=
  lit "No LinkedIn profile URL found in prompt. Example: https://linkedin.com/in/username"

def statusGenerating : Str := lit "🤖 Generating personalized connection note..."

def statusSendingConnect : Str := lit "📤 Sending LinkedIn connection request..."

def errMessageTextRequired : Str :=
  lit "Message text required for \x27message\x27 action (provide in options.message_text)"

def statusPersonalizing : Str := lit "🤖 Personalizing message with AI..."

def statusSendingMessage : Str := lit "📤 Sending LinkedIn message..."

/-- The connect branch of `execute` (`executor.py` lines 108–144): the
events already yielded are `ev`; yields the generating status, optionally
calls the personalization client (whose `ValueError`s are converted by the
outer `try/except` into the terminal error event), then performs the
connection request and reports the outcome. -/
def runConnect (llmEnv : LlmEnv) (cenv : ConnectEnv) (llm_config : LlmConfig)
    (linkedin_creds : Creds) (linkedin_url full_name title company : Str)
    (personalize : Bool) (ev : List Event) : RunOutput :=
  if personalize then
    match generate_personalized_note llmEnv llm_config
        ⟨some full_name, some title, some company, some linkedin_url, none⟩ with
    | (.error e, c) =>
      ⟨ev ++ [Event.status statusGenerating,
              Event.error (lit "LinkedIn agent error: " ++ e)], c, some linkedin_creds⟩
    | (.ok note, c) =>
      let sres := send_connection_request cenv linkedin_creds linkedin_url (some note)
      if sres.1.success then
        ⟨ev ++ [Event.status statusGenerating,
                Event.status (lit "✅ Generated note: \"" ++ note.take 50 ++ lit "...\""),
                Event.status statusSendingConnect,
                Event.result (ResultPayload.connect linkedin_url (some note)
                  (lit "✅ Connection request sent to " ++ pyOrStr full_name linkedin_url))],
         c ++ sres.2.map ExtCall.dom, some linkedin_creds⟩
      else
        ⟨ev ++ [Event.status statusGenerating,
                Event.status (lit "✅ Generated note: \"" ++ note.take 50 ++ lit "...\""),
                Event.status statusSendingConnect,
                Event.error (lit "Failed to send connection: " ++
                  sres.1.error.getD (lit "Unknown error"))],
         c ++ sres.2.map ExtCall.dom, some linkedin_creds⟩
  else
    let sres := send_connection_request cenv linkedin_creds linkedin_url none
    if sres.1.success then
      ⟨ev ++ [Event.status statusGenerating,
              Event.status statusSendingConnect,
              Event.result (ResultPayload.connect linkedin_url none
                (lit "✅ Connection request sent to " ++ pyOrStr full_name linkedin_url))],
       sres.2.map ExtCall.dom, some linkedin_creds⟩
    else
      ⟨ev ++ [Event.status statusGenerating,
              Event.status statusSendingConnect,
              Event.error (lit "Failed to send connection: " ++
                sres.1.error.getD (lit "Unknown error"))],
       sres.2.map ExtCall.dom, some linkedin_creds⟩

/-- The message branch of `execute` (`executor.py` lines 147–186): checks that
`message_text` is truthy, optionally rewrites it through the personalization
client, then performs the message send and reports the outcome. -/
def runMessage (llmEnv : LlmEnv) (menv : MsgEnv) (llm_config : LlmConfig)
    (linkedin_creds : Creds) (linkedin_url full_name title company : Str)
    (personalize : Bool) (message_text_opt : Option Str) (ev : List Event) : RunOutput :=
  if truthy message_text_opt = false then
    ⟨ev ++ [Event.error errMessageTextRequired], [], some linkedin_creds⟩
  else
    if personalize then
      match generate_personalized_note llmEnv llm_config
          ⟨some full_name, some title, some company, some linkedin_url,
           some (message_text_opt.getD [])⟩ with
      | (.error e, c) =>
        ⟨ev ++ [Event.status statusPersonalizing,
                Event.error (lit "LinkedIn agent error: " ++ e)], c, some linkedin_creds⟩
      | (.ok newText, c) =>
        let sres := send_message menv linkedin_creds linkedin_url newText
        if sres.1.success then
          ⟨ev ++ [Event.status statusPersonalizing,
                  Event.status statusSendingMessage,
                  Event.result (ResultPayload.message linkedin_url newText
                    (lit "✅ Message sent to " ++ pyOrStr full_name linkedin_url))],
           c ++ sres.2.map ExtCall.dom, some linkedin_creds⟩
        else
          ⟨ev ++ [Event.status statusPersonalizing,
                  Event.status statusSendingMessage,
                  Event.error (lit "Failed to send message: " ++
                    sres.1.error.getD (lit "Unknown error"))],
           c ++ sres.2.map ExtCall.dom, some linkedin_creds⟩
    else
      let sres := send_message menv linkedin_creds linkedin_url (message_text_opt.getD [])
      if sres.1.success then
        ⟨ev ++ [Event.status statusSendingMessage,
                Event.result (ResultPayload.message linkedin_url (message_text_opt.getD [])
                  (lit "✅ Message sent to " ++ pyOrStr full_name linkedin_url))],
         sres.2.map ExtCall.dom, some linkedin_creds⟩
      else
        ⟨ev ++ [Event.status statusSendingMessage,
                Event.error (lit "Failed to send message: " ++
                  sres.1.error.getD (lit "Unknown error"))],
         sres.2.map ExtCall.dom, some linkedin_creds⟩

/-- `execute` (`executor.py` lines 15–192).  The async generator is embedded
as a total function from the invocation inputs and the oracle environment to
the full run output; the surrounding `try/except` (line 191) appears inside
`runConnect`/`runMessage`, which convert the only exception-raising call
(`generate_personalized_note`) into the terminal `error` event while keeping
the events already yielded. -/
def execute (env : ExecEnv) (prompt : Str) (keys : Keys) (language : Option Str)
    (options : Option ExecOptions) : RunOutput :=
  let has_cookie := truthy keys.LINKEDIN_SESSION_COOKIE
  let has_password := truthy keys.LINKEDIN_EMAIL && truthy keys.LINKEDIN_PASSWORD
  if !has_cookie && !has_password then
    ⟨[Event.error errAuthMissing], [], none⟩
  else if truthy keys.LLM_API_KEY = false then
    ⟨[Event.error errLlmKeyMissing], [], none⟩
  else
    let auth_method := if has_cookie then lit "cookie" else lit "password"
    let ev0 : List Event :=
      if auth_method = lit "password" then [Event.status statusPasswordWarn] else []
    let linkedin_creds : Creds :=
      ⟨some auth_method, keys.LINKEDIN_SESSION_COOKIE, keys.LINKEDIN_EMAIL,
       keys.LINKEDIN_PASSWORD⟩
    let opts := options.getD emptyOptions
    let action := opts.action.getD (lit "connect")
    let personalize := opts.personalize.getD true
    let llm_provider := pyLower (keys.LLM_PROVIDER.getD (lit "google"))
    let llm_config : LlmConfig :=
      ⟨llm_provider, keys.LLM_MODEL.getD (_default_model llm_provider),
       keys.LLM_API_KEY.getD []⟩
    match env.extract_linkedin_url prompt with
    | none => ⟨ev0 ++ [Event.error errNoUrl], [], some linkedin_creds⟩
    | some linkedin_url =>
      let ev1 := ev0 ++ [Event.status (lit "🔗 Found LinkedIn profile: " ++ linkedin_url)]
      let full_name := opts.full_name.getD (env.extract_name_from_prompt prompt)
      if action = lit "connect" then
        runConnect env.llm env.connect llm_config linkedin_creds linkedin_url
          full_name (opts.title.getD []) (opts.company.getD []) personalize ev1
      else if action = lit "message" then
        runMessage env.llm env.msg llm_config linkedin_creds linkedin_url
          full_name (opts.title.getD []) (opts.company.getD []) personalize
          opts.message_text ev1
      else
        ⟨ev1 ++ [Event.error (lit "Unknown action: " ++ action ++
            lit ". Use \x27connect\x27 or \x27message\x27")], [], some linkedin_creds⟩

/-! ## Event-stream shape -/

/-- Is the event a `status` event? -/
def isStatus : Event → Bool
  | .status _ => true
  | _ => false

/-- Is the event terminal (a `result` or an `error`)? -/
def isTerminalEvent : Event → Bool
  | .status _ => false
  | _ => true

/-- A well-shaped progress stream: zero or more `status` events followed by
exactly one terminal (`result` or `error`) event. -/
def goodShape : List Event → Bool
  | [] => false
  | e :: rest => if rest.isEmpty then isTerminalEvent e else isStatus e && goodShape rest

/-- A status event is not terminal. -/
theorem isTerminal_of_not_isStatus (e : Event) (h : isStatus e = true) :
    isTerminalEvent e = false := by
  cases e <;> simp [isStatus, isTerminalEvent] at h ⊢

/-- A well-shaped stream contains exactly one terminal event. -/
theorem goodShape_filter_terminal :
    ∀ l : List Event, goodShape l = true → (l.filter isTerminalEvent).length = 1 := by
  intro l hl
  induction l with
  | nil => simp [goodShape] at hl
  | cons e rest ih =>
    by_cases hr : rest = []
    · subst hr
      simp [goodShape] at hl
      simp [List.filter, hl]
    · have hre : rest.isEmpty = false := by
        cases rest with
        | nil => exact absurd rfl hr
        | cons a t => rfl
      simp [goodShape, hre] at hl
      have h1 := isTerminal_of_not_isStatus e hl.1
      simp [List.filter, h1, ih hl.2]

/-- Prepending status events preserves a well-shaped event stream. -/
theorem goodShape_append (pre rest : List Event)
    (hpre : ∀ e ∈ pre, isStatus e = true) (hrest : goodShape rest = true) :
    goodShape (pre ++ rest) = true := by
  induction pre with
  | nil => simpa using hrest
  | cons e t ih =>
    have hne : rest ≠ [] := by
      intro h
      subst h
      simp [goodShape] at hrest
    have h1 : (t ++ rest).isEmpty = false := by
      cases t with
      | nil =>
        cases rest with
        | nil => exact absurd rfl hne
        | cons a b => rfl
      | cons a b => rfl
    have h2 := ih (fun x hx => hpre x (List.mem_cons_of_mem e hx))
    simp [goodShape, h1, hpre e (List.mem_cons_self e t), h2]

/-- Every connect flow produces a well-shaped stream after any status-only
prefix. -/
theorem goodShape_runConnect (llmEnv : LlmEnv) (cenv : ConnectEnv)
    (llm_config : LlmConfig) (creds : Creds) (url fn ti co : Str)
    (pers : Bool) (ev : List Event) (hev : ∀ e ∈ ev, isStatus e = true) :
    goodShape (runConnect llmEnv cenv llm_config creds url fn ti co pers ev).events = true := by
  rw [runConnect.eq_def]
  dsimp only []
  repeat' split
  all_goals exact goodShape_append _ _ hev (by simp [goodShape, isStatus, isTerminalEvent])

/-- Every message flow produces a well-shaped stream after any status-only
prefix. -/
theorem goodShape_runMessage (llmEnv : LlmEnv) (menv : MsgEnv)
    (llm_config : LlmConfig) (creds : Creds) (url fn ti co : Str)
    (pers : Bool) (mt : Option Str) (ev : List Event)
    (hev : ∀ e ∈ ev, isStatus e = true) :
    goodShape (runMessage llmEnv menv llm_config creds url fn ti co pers mt ev).events = true := by
  rw [runMessage.eq_def]
  dsimp only []
  repeat' split
  all_goals exact goodShape_append _ _ hev (by simp [goodShape, isStatus, isTerminalEvent])

/-- C1: for every invocation of `execute` (any prompt, keys, language and
options, and any behaviour of the extraction, LLM and browser oracles) the
emitted event sequence consists of zero or more `status` events followed by
exactly one terminal event, which is a `result` or an `error` but never both;
since `execute` is embedded as a total function into structured events, no
exception escapes to the caller as an unhandled fault. -/
theorem C1_single_terminal_event (env : ExecEnv) (prompt : Str) (keys : Keys)
    (language : Option Str) (options : Option ExecOptions) :
    goodShape (execute env prompt keys language options).events = true ∧
    ((execute env prompt keys language options).events.filter isTerminalEvent).length = 1 := by
  have h : goodShape (execute env prompt keys language options).events = true := by
    rw [execute.eq_def]
    dsimp only []
    repeat' split
    all_goals try simp [goodShape, isStatus, isTerminalEvent]
    all_goals
      first
        | refine goodShape_runConnect _ _ _ _ _ _ _ _ _ _ ?_
        | refine goodShape_runMessage _ _ _ _ _ _ _ _ _ _ _ ?_
    all_goals
      intro e he
      simp at he
      obtain rfl | rfl := he <;> rfl
  exact ⟨h, goodShape_filter_terminal _ h⟩

/-! ## C3: note post-processing -/

/-- C3 counterexample: the claim "if the provider output is 300 characters or
shorter the returned note equals the input unchanged" fails, because the
post-processing strips whitespace before truncating: on the two-character
input `" a"` the returned note is `"a"`, not the input.  (The "exactly 300
characters" half fails on whitespace-padded long inputs for the same reason:
a 301-character input of one letter followed by 300 spaces comes back with
length 1.) -/
theorem C3_counterexample :
    (lit " a").length ≤ 300 ∧ postprocess_note (lit " a") ≠ lit " a" ∧
    (('a' :: List.replicate 300 ' ').length > 300 ∧
      (postprocess_note ('a' :: List.replicate 300 ' ')).length ≠ 300) := by
  refine ⟨by decide, by decide, by decide, ?_⟩
  decide

/-- C3 amended: the post-processing first trims whitespace and then truncates:
whenever the trimmed provider output is longer than 300 characters the
returned note is exactly 300 characters long, whenever the trimmed output is
300 characters or shorter the returned note equals the trimmed output, and
applying the truncation step to the post-processing's own output returns it
unchanged (idempotence of the truncation step). -/
theorem C3_trim_then_truncate (s : Str) :
    ((pyStrip s).length > 300 → (postprocess_note s).length = 300) ∧
    ((pyStrip s).length ≤ 300 → postprocess_note s = pyStrip s) ∧
    truncate300 (postprocess_note s) = postprocess_note s := by
  refine ⟨?_, ?_, ?_⟩
  · intro h
    simp [postprocess_note, truncate300]
    omega
  · intro h
    simp [postprocess_note, truncate300, List.take_of_length_le h]
  · simp [postprocess_note, truncate300, List.take_take]

/-- C3 witness: both conditional halves of the amended statement evaluated at
concrete inputs. -/
theorem C3_trim_then_truncate_witness :
    ((pyStrip (List.replicate 301 'a')).length > 300 ∧
      (postprocess_note (List.replicate 301 'a')).length = 300) ∧
    ((pyStrip (lit " note ")).length ≤ 300 ∧
      postprocess_note (lit " note ") = pyStrip (lit " note ")) :=
  ⟨⟨by decide, (C3_trim_then_truncate (List.replicate 301 'a')).1 (by decide)⟩,
   ⟨by decide, (C3_trim_then_truncate (lit " note ")).2.1 (by decide)⟩⟩

/-! ## C2: connect-run alternate-control priority -/

/-- C2: in every connect run in which no "Connect" control is present, the
engine checks the alternates in priority order — "Pending" first, then
"Message".  A profile exposing a "Pending" control yields the
already-requested outcome (`"Connection request already sent"`), regardless of
whether a "Message" control is also present, and never the control-not-found
outcome; a profile exposing only a "Message" control yields the
already-connected outcome; only when neither alternate is present does the run
yield `"Connect button not found on profile"`.  Both deployment variants are
covered. -/
theorem C2_connect_alternate_priority
    (env : ConnectEnv) (oenv : OpenClaw.OcConnectEnv) (creds : Creds)
    (url : Str) (note : Option Str) (atr : List DomAction)
    (hAuth : _authenticate_linkedin env.auth creds = (.ok ⟨true, none⟩, atr))
    (hNoConnect : env.page.hasConnect = false)
    (hOcLogged : (pyIn (lit "login") oenv.feedNavUrl ||
        pyIn (lit "checkpoint") oenv.feedNavUrl) = false)
    (hOcNoConnect : oenv.page.hasConnect = false) :
    (env.page.hasPending = true →
      (send_connection_request env creds url note).1 = ⟨false, some errAlreadySent⟩) ∧
    (env.page.hasPending = false → env.page.hasMessageBtn = true →
      (send_connection_request env creds url note).1 = ⟨false, some errAlreadyConnected⟩) ∧
    (env.page.hasPending = false → env.page.hasMessageBtn = false →
      (send_connection_request env creds url note).1 = ⟨false, some errConnectNotFound⟩) ∧
    (oenv.page.hasPending = true →
      (OpenClaw.send_connection_request oenv url note).1 = ⟨false, some errAlreadySent⟩) ∧
    (oenv.page.hasPending = false → oenv.page.hasMessageBtn = true →
      (OpenClaw.send_connection_request oenv url note).1 = ⟨false, some errAlreadyConnected⟩) ∧
    (oenv.page.hasPending = false → oenv.page.hasMessageBtn = false →
      (OpenClaw.send_connection_request oenv url note).1 = ⟨false, some errConnectNotFound⟩) := by
  refine ⟨?_, ?_, ?_, ?_, ?_, ?_⟩ <;> intros <;>
    simp [send_connection_request, OpenClaw.send_connection_request,
      hAuth, hNoConnect, hOcLogged, hOcNoConnect, *]

/-- Concrete cookie credentials used by witness runs. -/
def credsCookieW : Creds := ⟨some (lit "cookie"), some (lit "AQEDAtoken"), none, none⟩

/-- Concrete authentication oracle: cookie navigation lands on the feed. -/
def authEnvW : AuthEnv := ⟨feedUrl, .ok (), []⟩

/-- The browser trace of a successful cookie authentication. -/
def authTraceW : List DomAction :=
  [DomAction.addCookies, DomAction.goto feedUrl, DomAction.waitNetworkIdle]

/-- Concrete target profile URL used by witness runs. -/
def urlW : Str := lit "https://www.linkedin.com/in/jane-doe"

/-- Witness profile for C2: no "Connect" control, but both a "Pending" and a
"Message" control. -/
def pendingPageW : ConnectPage := ⟨false, true, true, false, false, false, false⟩

def connectEnvW : ConnectEnv := ⟨authEnvW, pendingPageW⟩

def ocConnectEnvW : OpenClaw.OcConnectEnv := ⟨feedUrl, pendingPageW⟩

/-- C2 witness: on the concrete pending-and-message profile, both variants
report the already-requested outcome, not control-not-found. -/
theorem C2_connect_alternate_priority_witness :
    _authenticate_linkedin connectEnvW.auth credsCookieW = (.ok ⟨true, none⟩, authTraceW) ∧
    connectEnvW.page.hasConnect = false ∧
    connectEnvW.page.hasPending = true ∧
    connectEnvW.page.hasMessageBtn = true ∧
    (send_connection_request connectEnvW credsCookieW urlW (some (lit "hello"))).1 =
      ⟨false, some errAlreadySent⟩ ∧
    (OpenClaw.send_connection_request ocConnectEnvW urlW (some (lit "hello"))).1 =
      ⟨false, some errAlreadySent⟩ :=
  ⟨by rfl, rfl, rfl, rfl,
   (C2_connect_alternate_priority connectEnvW ocConnectEnvW credsCookieW urlW
      (some (lit "hello")) authTraceW (by rfl) rfl (by rfl) rfl).1 rfl,
   (C2_connect_alternate_priority connectEnvW ocConnectEnvW credsCookieW urlW
      (some (lit "hello")) authTraceW (by rfl) rfl (by rfl) rfl).2.2.2.1 rfl⟩

/-! ## C4: cookie-strategy priority -/

/-- An interaction that only the password strategy performs: navigating to the
login page, filling a field, clicking, or waiting for a URL pattern. -/
def isPasswordAuthAction : DomAction → Bool
  | .goto u => decide (u = loginUrl)
  | .fill _ _ => true
  | .click _ => true
  | .waitForUrl _ => true
  | _ => false

/-- The connect flow always records the credentials it was given. -/
theorem runConnect_credsUsed (llmEnv : LlmEnv) (cenv : ConnectEnv)
    (llm_config : LlmConfig) (creds : Creds) (url fn ti co : Str)
    (pers : Bool) (ev : List Event) :
    (runConnect llmEnv cenv llm_config creds url fn ti co pers ev).credsUsed = some creds := by
  rw [runConnect.eq_def]
  dsimp only []
  repeat' split
  all_goals rfl

/-- The message flow always records the credentials it was given. -/
theorem runMessage_credsUsed (llmEnv : LlmEnv) (menv : MsgEnv)
    (llm_config : LlmConfig) (creds : Creds) (url fn ti co : Str)
    (pers : Bool) (mt : Option Str) (ev : List Event) :
    (runMessage llmEnv menv llm_config creds url fn ti co pers mt ev).credsUsed = some creds := by
  rw [runMessage.eq_def]
  dsimp only []
  repeat' split
  all_goals rfl

/-- The credentials a run packages are either absent (input-error exits before
packaging) or exactly the dictionary built at `executor.py` lines 71–76, whose
method is `"cookie"` iff a session cookie is (truthily) present. -/
theorem execute_credsUsed (env : ExecEnv) (prompt : Str) (keys : Keys)
    (language : Option Str) (options : Option ExecOptions) :
    (execute env prompt keys language options).credsUsed = none ∨
    (execute env prompt keys language options).credsUsed =
      some ⟨some (if truthy keys.LINKEDIN_SESSION_COOKIE then lit "cookie" else lit "password"),
            keys.LINKEDIN_SESSION_COOKIE, keys.LINKEDIN_EMAIL, keys.LINKEDIN_PASSWORD⟩ := by
  rw [execute.eq_def]
  dsimp only []
  repeat' split
  all_goals first
    | exact Or.inl rfl
    | exact Or.inr rfl
    | exact Or.inr (runConnect_credsUsed _ _ _ _ _ _ _ _ _ _)
    | exact Or.inr (runMessage_credsUsed _ _ _ _ _ _ _ _ _ _ _)

/-- With a cookie-method credential dictionary, the resolver's trace is the
cookie strategy's (possibly empty) trace. -/
theorem cookie_auth_trace (aenv : AuthEnv) (creds : Creds)
    (hm : creds.method = some (lit "cookie")) :
    (_authenticate_linkedin aenv creds).2 = [] ∨
    (_authenticate_linkedin aenv creds).2 =
      [DomAction.addCookies, DomAction.goto feedUrl, DomAction.waitNetworkIdle] := by
  rw [_authenticate_linkedin.eq_def, hm]
  dsimp only []
  repeat' split
  all_goals simp_all

/-- C4: whenever the key set populates both a session cookie and an
email+password pair, the executor selects the cookie strategy: any credentials
dictionary it packages carries `method = "cookie"`, and the resolver, given a
cookie-method dictionary, performs no password-strategy interaction (no login
navigation, no credential fill, no submit click, no URL wait). -/
theorem C4_cookie_strategy_priority (env : ExecEnv) (prompt : Str) (keys : Keys)
    (language : Option Str) (options : Option ExecOptions)
    (hC : truthy keys.LINKEDIN_SESSION_COOKIE = true)
    (hE : truthy keys.LINKEDIN_EMAIL = true)
    (hP : truthy keys.LINKEDIN_PASSWORD = true) :
    (∀ c, (execute env prompt keys language options).credsUsed = some c →
      c.method = some (lit "cookie")) ∧
    (∀ aenv creds, creds.method = some (lit "cookie") →
      ∀ a ∈ (_authenticate_linkedin aenv creds).2, isPasswordAuthAction a = false) := by
  constructor
  · intro c hc
    rcases execute_credsUsed env prompt keys language options with h | h
    · rw [h] at hc
      cases hc
    · rw [h] at hc
      injection hc with h2
      subst h2
      simp [hC]
  · intro aenv creds hm a ha
    rcases cookie_auth_trace aenv creds hm with h | h
    · rw [h] at ha
      cases ha
    · rw [h] at ha
      simp at ha
      rcases ha with rfl | rfl | rfl <;> rfl

/-- Concrete key set populating both the session cookie and the
email+password pair. -/
def keysBothW : Keys :=
  ⟨some (lit "AQEDAtoken"), some (lit "user@example.com"), some (lit "hunter2"),
   some (lit "sk-key"), none, none⟩

/-- Concrete LLM oracle: the google adapter returns a fixed raw note. -/
def llmEnvW : LlmEnv :=
  ⟨fun _ _ _ _ => .error (lit "unused"), fun _ _ _ _ => .error (lit "unused"),
   fun _ _ _ _ => .ok (lit "  Impressed by your work at TechCorp — would love to connect.  ")⟩

/-- Witness message page exposing no "Message" control. -/
def msgPageNoBtnW : MessagePage := ⟨false, false, false, false, false⟩

/-- Executor environment whose prompt contains no profile URL. -/
def execEnvNoUrlW : ExecEnv :=
  ⟨fun _ => none, fun _ => [], llmEnvW, connectEnvW, ⟨authEnvW, msgPageNoBtnW⟩⟩

/-- The credentials dictionary the witness run packages. -/
def credsUsedW : Creds :=
  ⟨some (lit "cookie"), some (lit "AQEDAtoken"), some (lit "user@example.com"),
   some (lit "hunter2")⟩

/-- C4 witness: on a concrete key set with both credential kinds populated,
the packaged credentials carry the cookie method. -/
theorem C4_cookie_strategy_priority_witness :
    truthy keysBothW.LINKEDIN_SESSION_COOKIE = true ∧
    truthy keysBothW.LINKEDIN_EMAIL = true ∧
    truthy keysBothW.LINKEDIN_PASSWORD = true ∧
    (execute execEnvNoUrlW (lit "hi") keysBothW none none).credsUsed = some credsUsedW ∧
    credsUsedW.method = some (lit "cookie") :=
  ⟨by rfl, by rfl, by rfl, by rfl,
   (C4_cookie_strategy_priority execEnvNoUrlW (lit "hi") keysBothW none none
      (by rfl) (by rfl) (by rfl)).1 credsUsedW (by rfl)⟩

/-! ## C5: message run with no "Message" control -/

/-- Is the action a DOM field fill? -/
def isFill : DomAction → Bool
  | .fill _ _ => true
  | _ => false

/-- Is the action a DOM click? -/
def isClick : DomAction → Bool
  | .click _ => true
  | _ => false

/-- C5: a message run against a profile exposing no "Message" control returns
the not-connected outcome and performs no further DOM interaction after the
failed control lookup: the complete trace is the authentication trace, the
profile navigation, the single failed query, and the browser teardown — no
field fill and no click ever occur beyond those of authentication.  Both
deployment variants are covered (the split-execution trace contains no fill
and no click at all). -/
theorem C5_message_not_connected
    (env : MsgEnv) (oenv : OpenClaw.OcMsgEnv) (creds : Creds) (url msg : Str)
    (atr : List DomAction)
    (hAuth : _authenticate_linkedin env.auth creds = (.ok ⟨true, none⟩, atr))
    (hNoBtn : env.page.hasMessageBtn = false)
    (hOcLogged : pyIn (lit "login") oenv.feedNavUrl = false)
    (hOcNoBtn : oenv.page.hasMessageBtn = false) :
    send_message env creds url msg =
      (⟨false, some errMessageBtnNotFound⟩,
       atr ++ [DomAction.goto url, DomAction.waitNetworkIdle, DomAction.query selMessageBtn,
               DomAction.browserClose]) ∧
    (∀ s t, DomAction.fill s t ∈ (send_message env creds url msg).2 →
      DomAction.fill s t ∈ atr) ∧
    (∀ s, DomAction.click s ∈ (send_message env creds url msg).2 →
      DomAction.click s ∈ atr) ∧
    OpenClaw.send_message oenv url msg =
      (⟨false, some errMessageBtnNotFound⟩,
       [DomAction.goto feedUrl, DomAction.waitNetworkIdle, DomAction.goto url,
        DomAction.waitNetworkIdle, DomAction.query selMessageBtn, DomAction.browserClose]) ∧
    (OpenClaw.send_message oenv url msg).2.all (fun a => !isFill a && !isClick a) = true := by
  have h1 : send_message env creds url msg =
      (⟨false, some errMessageBtnNotFound⟩,
       atr ++ [DomAction.goto url, DomAction.waitNetworkIdle, DomAction.query selMessageBtn,
               DomAction.browserClose]) := by
    simp [send_message, hAuth, hNoBtn]
  have h2 : OpenClaw.send_message oenv url msg =
      (⟨false, some errMessageBtnNotFound⟩,
       [DomAction.goto feedUrl, DomAction.waitNetworkIdle, DomAction.goto url,
        DomAction.waitNetworkIdle, DomAction.query selMessageBtn, DomAction.browserClose]) := by
    simp [OpenClaw.send_message, hOcLogged, hOcNoBtn]
  refine ⟨h1, ?_, ?_, h2, ?_⟩
  · intro s t ht
    rw [h1] at ht
    simpa using ht
  · intro s ht
    rw [h1] at ht
    simpa using ht
  · rw [h2]
    simp [isFill, isClick]

/-- Witness remote-execution message environment with no "Message" control. -/
def msgEnvW : MsgEnv := ⟨authEnvW, msgPageNoBtnW⟩

/-- Witness split-execution message environment with no "Message" control. -/
def ocMsgEnvW : OpenClaw.OcMsgEnv := ⟨feedUrl, msgPageNoBtnW⟩

/-- C5 witness: concrete not-connected message runs in both variants. -/
theorem C5_message_not_connected_witness :
    _authenticate_linkedin msgEnvW.auth credsCookieW = (.ok ⟨true, none⟩, authTraceW) ∧
    msgEnvW.page.hasMessageBtn = false ∧
    pyIn (lit "login") ocMsgEnvW.feedNavUrl = false ∧
    ocMsgEnvW.page.hasMessageBtn = false ∧
    send_message msgEnvW credsCookieW urlW (lit "hello there") =
      (⟨false, some errMessageBtnNotFound⟩,
       authTraceW ++ [DomAction.goto urlW, DomAction.waitNetworkIdle,
                      DomAction.query selMessageBtn, DomAction.browserClose]) :=
  ⟨by rfl, rfl, by rfl, rfl,
   (C5_message_not_connected msgEnvW ocMsgEnvW credsCookieW urlW (lit "hello there")
      authTraceW (by rfl) rfl (by rfl) rfl).1⟩

/-! ## C6: missing LLM API key -/

/-- C6: for every invocation whose keys pass the LinkedIn-credential check
(cookie, or email and password) but carry no LLM API key, the run output is
exactly one immediate terminal `error` event — no `status` event precedes it —
and the external-activity trace is empty: no LLM HTTP call and no browser
interaction of any kind occurs (credentials are not even packaged). -/
theorem C6_missing_llm_key_immediate_error (env : ExecEnv) (prompt : Str) (keys : Keys)
    (language : Option Str) (options : Option ExecOptions)
    (hCreds : (truthy keys.LINKEDIN_SESSION_COOKIE ||
        (truthy keys.LINKEDIN_EMAIL && truthy keys.LINKEDIN_PASSWORD)) = true)
    (hNoKey : truthy keys.LLM_API_KEY = false) :
    execute env prompt keys language options =
      ⟨[Event.error errLlmKeyMissing], [], none⟩ := by
  rw [execute.eq_def]
  dsimp only []
  cases hc : truthy keys.LINKEDIN_SESSION_COOKIE with
  | true => simp [hc, hNoKey]
  | false =>
    rw [hc] at hCreds
    simp only [Bool.false_or, Bool.and_eq_true] at hCreds
    simp [hc, hCreds.1, hCreds.2, hNoKey]

/-- Concrete key set with a session cookie but no LLM API key. -/
def keysNoLlmW : Keys := ⟨some (lit "AQEDAtoken"), none, none, none, none, none⟩

/-- C6 witness: the concrete run emits only the missing-key error and does
nothing else. -/
theorem C6_missing_llm_key_immediate_error_witness :
    (truthy keysNoLlmW.LINKEDIN_SESSION_COOKIE ||
      (truthy keysNoLlmW.LINKEDIN_EMAIL && truthy keysNoLlmW.LINKEDIN_PASSWORD)) = true ∧
    truthy keysNoLlmW.LLM_API_KEY = false ∧
    execute execEnvNoUrlW (lit "Connect with Jane: https://linkedin.com/in/jane-doe")
        keysNoLlmW none none =
      ⟨[Event.error errLlmKeyMissing], [], none⟩ :=
  ⟨by rfl, by rfl,
   C6_missing_llm_key_immediate_error execEnvNoUrlW
     (lit "Connect with Jane: https://linkedin.com/in/jane-doe") keysNoLlmW none none
     (by rfl) (by rfl)⟩

/-! ## C7: password-strategy timeout classification -/

/-- A generic automation-error message never equals the checkpoint message,
whatever detail it carries. -/
theorem automation_error_ne_checkpoint (m : Str) :
    lit "LinkedIn automation error: " ++ m ≠ errSecurityCheckpoint := by
  intro h
  have hp : lit "LinkedIn automation error: " <+: errSecurityCheckpoint := ⟨m, h⟩
  exact absurd hp (by decide)

/-- C7: in every password-strategy authentication whose bounded wait for the
feed page fails with an exception, the resolver inspects the resulting
location.  If it indicates a checkpoint (or challenge) page it reports the
terminal security-checkpoint failure, whose message literally tells the caller
to use session-cookie authentication instead; otherwise the exception is
re-raised, and a connect run surfaces it through the generic exception
classification (`"LinkedIn operation timeout"` for a Playwright timeout,
`"LinkedIn automation error: …"` otherwise), which is never the checkpoint
message. -/
theorem C7_password_timeout_classification
    (aenv : AuthEnv) (creds : Creds) (page : ConnectPage) (e : PwExn)
    (url : Str) (note : Option Str)
    (hMethod : creds.method.getD (lit "password") ≠ lit "cookie")
    (hEmail : truthy creds.email = true)
    (hPassword : truthy creds.password = true)
    (hWait : aenv.loginWait = .error e) :
    ((pyIn (lit "checkpoint") aenv.postLoginUrl ||
        pyIn (lit "challenge") aenv.postLoginUrl) = true →
      (_authenticate_linkedin aenv creds).1 = .ok ⟨false, some errSecurityCheckpoint⟩ ∧
      pyIn (lit "session cookie") errSecurityCheckpoint = true) ∧
    ((pyIn (lit "checkpoint") aenv.postLoginUrl ||
        pyIn (lit "challenge") aenv.postLoginUrl) = false →
      (_authenticate_linkedin aenv creds).1 = .error e ∧
      (send_connection_request ⟨aenv, page⟩ creds url note).1 = svc_exception_result e ∧
      (svc_exception_result e).error ≠ some errSecurityCheckpoint) := by
  constructor
  · intro h
    refine ⟨?_, by decide⟩
    simp [_authenticate_linkedin, hMethod, hEmail, hPassword, hWait, h]
  · intro h
    have hA : (_authenticate_linkedin aenv creds).1 = .error e := by
      simp [_authenticate_linkedin, hMethod, hEmail, hPassword, hWait, h]
    refine ⟨hA, ?_, ?_⟩
    · rcases hp : _authenticate_linkedin aenv creds with ⟨r, tr⟩
      rw [hp] at hA
      dsimp at hA
      subst hA
      simp [send_connection_request, hp]
    · cases e with
      | timeout => decide
      | other m =>
        simp only [svc_exception_result, ne_eq, Option.some.injEq]
        exact fun hEq => automation_error_ne_checkpoint m hEq

/-- Concrete password credentials and a checkpoint-redirect login outcome. -/
def credsPasswordW : Creds :=
  ⟨none, none, some (lit "user@example.com"), some (lit "hunter2")⟩

/-- Concrete authentication oracle: the login wait times out and the browser
is left on a checkpoint page. -/
def authEnvCheckpointW : AuthEnv :=
  ⟨[], .error .timeout, lit "https://www.linkedin.com/checkpoint/challenge/"⟩

/-- C7 witness: the concrete checkpoint-redirect run reports the terminal
checkpoint failure with cookie-switch guidance. -/
theorem C7_password_timeout_classification_witness :
    credsPasswordW.method.getD (lit "password") ≠ lit "cookie" ∧
    truthy credsPasswordW.email = true ∧
    truthy credsPasswordW.password = true ∧
    authEnvCheckpointW.loginWait = .error PwExn.timeout ∧
    (pyIn (lit "checkpoint") authEnvCheckpointW.postLoginUrl ||
      pyIn (lit "challenge") authEnvCheckpointW.postLoginUrl) = true ∧
    (_authenticate_linkedin authEnvCheckpointW credsPasswordW).1 =
      .ok ⟨false, some errSecurityCheckpoint⟩ :=
  ⟨by decide, by rfl, by rfl, rfl, by rfl,
   ((C7_password_timeout_classification authEnvCheckpointW credsPasswordW
      pendingPageW .timeout urlW none (by decide) (by rfl) (by rfl) rfl).1 (by rfl)).1⟩

/-! ## C8: absent "Add a note" affordance drops the note silently -/

/-- C8: in every connect run supplied with a non-empty note where the
"Add a note" affordance is absent after activating the Connect control, the
note is silently dropped: the run performs no fill, proceeds directly to the
submit control, and (submit control present) still reports success.  Both
deployment variants are covered. -/
theorem C8_note_silently_dropped
    (env : ConnectEnv) (oenv : OpenClaw.OcConnectEnv) (creds : Creds)
    (url n : Str) (atr : List DomAction)
    (hAuth : _authenticate_linkedin env.auth creds = (.ok ⟨true, none⟩, atr))
    (hNote : n.isEmpty = false)
    (hConnect : env.page.hasConnect = true)
    (hNoAffordance : env.page.hasAddNote = false)
    (hSend : env.page.hasSendAria = true)
    (hOcLogged : (pyIn (lit "login") oenv.feedNavUrl ||
        pyIn (lit "checkpoint") oenv.feedNavUrl) = false)
    (hOcConnect : oenv.page.hasConnect = true)
    (hOcNoAffordance : oenv.page.hasAddNote = false)
    (hOcSend : oenv.page.hasSendAria = true) :
    send_connection_request env creds url (some n) =
      (⟨true, none⟩,
       atr ++ [DomAction.goto url, DomAction.waitNetworkIdle, DomAction.query selConnect,
               DomAction.click selConnect, DomAction.waitTimeout 2000, DomAction.query selAddNote,
               DomAction.query selSendAria, DomAction.click selSendAria,
               DomAction.waitTimeout 3000, DomAction.browserClose]) ∧
    (∀ s t, DomAction.fill s t ∈ (send_connection_request env creds url (some n)).2 →
      DomAction.fill s t ∈ atr) ∧
    OpenClaw.send_connection_request oenv url (some n) =
      (⟨true, none⟩,
       [DomAction.goto feedUrl, DomAction.waitNetworkIdle, DomAction.goto url,
        DomAction.waitNetworkIdle, DomAction.query selConnect, DomAction.click selConnect,
        DomAction.waitTimeout 2000, DomAction.query selAddNote, DomAction.query selSendAria,
        DomAction.click selSendAria, DomAction.waitTimeout 3000, DomAction.browserClose]) ∧
    (OpenClaw.send_connection_request oenv url (some n)).2.all (fun a => !isFill a) = true := by
  have h1 : send_connection_request env creds url (some n) =
      (⟨true, none⟩,
       atr ++ [DomAction.goto url, DomAction.waitNetworkIdle, DomAction.query selConnect,
               DomAction.click selConnect, DomAction.waitTimeout 2000, DomAction.query selAddNote,
               DomAction.query selSendAria, DomAction.click selSendAria,
               DomAction.waitTimeout 3000, DomAction.browserClose]) := by
    simp [send_connection_request, hAuth, hConnect, hNoAffordance, hSend, truthy, hNote]
  have h2 : OpenClaw.send_connection_request oenv url (some n) =
      (⟨true, none⟩,
       [DomAction.goto feedUrl, DomAction.waitNetworkIdle, DomAction.goto url,
        DomAction.waitNetworkIdle, DomAction.query selConnect, DomAction.click selConnect,
        DomAction.waitTimeout 2000, DomAction.query selAddNote, DomAction.query selSendAria,
        DomAction.click selSendAria, DomAction.waitTimeout 3000, DomAction.browserClose]) := by
    simp [OpenClaw.send_connection_request, hOcLogged, hOcConnect, hOcNoAffordance, hOcSend,
      truthy, hNote]
  refine ⟨h1, ?_, h2, ?_⟩
  · intro s t ht
    rw [h1] at ht
    simpa using ht
  · rw [h2]
    simp [isFill]

/-- Witness profile: Connect control present, no "Add a note" affordance,
aria-labelled Send control present. -/
def noAffordancePageW : ConnectPage := ⟨true, false, false, false, false, true, false⟩

def connectEnvNoAffW : ConnectEnv := ⟨authEnvW, noAffordancePageW⟩

def ocConnectEnvNoAffW : OpenClaw.OcConnectEnv := ⟨feedUrl, noAffordancePageW⟩

/-- C8 witness: the concrete no-affordance run reports success with the note
dropped (no fill in the trace). -/
theorem C8_note_silently_dropped_witness :
    _authenticate_linkedin connectEnvNoAffW.auth credsCookieW = (.ok ⟨true, none⟩, authTraceW) ∧
    (lit "Great to meet you!").isEmpty = false ∧
    connectEnvNoAffW.page.hasConnect = true ∧
    connectEnvNoAffW.page.hasAddNote = false ∧
    connectEnvNoAffW.page.hasSendAria = true ∧
    send_connection_request connectEnvNoAffW credsCookieW urlW
        (some (lit "Great to meet you!")) =
      (⟨true, none⟩,
       authTraceW ++ [DomAction.goto urlW, DomAction.waitNetworkIdle, DomAction.query selConnect,
               DomAction.click selConnect, DomAction.waitTimeout 2000, DomAction.query selAddNote,
               DomAction.query selSendAria, DomAction.click selSendAria,
               DomAction.waitTimeout 3000, DomAction.browserClose]) :=
  ⟨by rfl, by rfl, rfl, rfl, rfl,
   (C8_note_silently_dropped connectEnvNoAffW ocConnectEnvNoAffW credsCookieW urlW
      (lit "Great to meet you!") authTraceW (by rfl) (by rfl) rfl rfl rfl (by rfl)
      rfl rfl rfl).1⟩

/-! ## C9: missing note field never fails a connect run -/

/-- The generic exception classification never yields the
input-field-not-found message. -/
theorem svc_exception_error_ne (e : PwExn) :
    (svc_exception_result e).error ≠ some errMessageInputNotFound := by
  cases e with
  | timeout => decide
  | other m =>
    simp only [svc_exception_result, ne_eq, Option.some.injEq]
    intro h
    have hp : lit "LinkedIn automation error: " <+: errMessageInputNotFound := ⟨m, h⟩
    exact absurd hp (by decide)

/-- No authentication result carries the input-field-not-found message. -/
theorem auth_result_error_ne (aenv : AuthEnv) (creds : Creds) (ar : ActionResult)
    (tr : List DomAction)
    (h : _authenticate_linkedin aenv creds = (.ok ar, tr)) :
    ar.error ≠ some errMessageInputNotFound := by
  rw [_authenticate_linkedin.eq_def] at h
  dsimp only [] at h
  repeat' split at h
  all_goals first
    | (simp only [Prod.mk.injEq, Except.ok.injEq] at h
       obtain ⟨h1, h2⟩ := h
       subst h1
       decide)
    | (exfalso; simp at h)

/-- A connect run can never return the input-field-not-found error, whatever
the page, credentials and oracles report. -/
theorem connect_error_ne_input_not_found (env : ConnectEnv) (creds : Creds)
    (url : Str) (note : Option Str) :
    (send_connection_request env creds url note).1.error ≠ some errMessageInputNotFound := by
  rw [send_connection_request.eq_def]
  dsimp only []
  repeat' split
  all_goals first
    | simpa using svc_exception_error_ne _
    | simpa using auth_result_error_ne env.auth creds _ _ (by assumption)
    | (simp only [ne_eq, Option.some.injEq]
       decide)

/-- C9: a connect run never fails because the note-entry field is missing —
when the note textarea is absent after the "Add a note" affordance was
activated, the note fill is skipped (no fill beyond authentication appears in
the trace) and the run proceeds to the submit step and succeeds; a connect run
can never return the input-field-not-found error at all; only the message
action returns `"Message input field not found"`, which it does exactly when
both message-entry surfaces are absent. -/
theorem C9_connect_note_field_optional
    (env : ConnectEnv) (menv : MsgEnv) (creds mcreds : Creds)
    (url murl n mmsg : Str) (atr matr : List DomAction)
    (hAuth : _authenticate_linkedin env.auth creds = (.ok ⟨true, none⟩, atr))
    (hNote : n.isEmpty = false)
    (hConnect : env.page.hasConnect = true)
    (hAffordance : env.page.hasAddNote = true)
    (hNoField : env.page.hasNoteField = false)
    (hSend : env.page.hasSendAria = true)
    (hAuthM : _authenticate_linkedin menv.auth mcreds = (.ok ⟨true, none⟩, matr))
    (hBtn : menv.page.hasMessageBtn = true)
    (hNoCE : menv.page.hasContentEditable = false)
    (hNoTA : menv.page.hasTextarea = false) :
    (send_connection_request env creds url (some n)).1 = ⟨true, none⟩ ∧
    (∀ s t, DomAction.fill s t ∈ (send_connection_request env creds url (some n)).2 →
      DomAction.fill s t ∈ atr) ∧
    (send_message menv mcreds murl mmsg).1 = ⟨false, some errMessageInputNotFound⟩ ∧
    (∀ (env2 : ConnectEnv) (creds2 : Creds) (url2 : Str) (note2 : Option Str),
      (send_connection_request env2 creds2 url2 note2).1.error ≠ some errMessageInputNotFound) := by
  have h1 : send_connection_request env creds url (some n) =
      (⟨true, none⟩,
       atr ++ [DomAction.goto url, DomAction.waitNetworkIdle, DomAction.query selConnect,
               DomAction.click selConnect, DomAction.waitTimeout 2000, DomAction.query selAddNote,
               DomAction.click selAddNote, DomAction.waitTimeout 1000, DomAction.query selNoteField,
               DomAction.query selSendAria, DomAction.click selSendAria,
               DomAction.waitTimeout 3000, DomAction.browserClose]) := by
    simp [send_connection_request, hAuth, hConnect, hAffordance, hNoField, hSend, truthy, hNote]
  refine ⟨by rw [h1], ?_, ?_, ?_⟩
  · intro s t ht
    rw [h1] at ht
    simpa using ht
  · simp [send_message, hAuthM, hBtn, hNoCE, hNoTA]
  · intro env2 creds2 url2 note2
    exact connect_error_ne_input_not_found env2 creds2 url2 note2

/-- Witness profile: Connect and "Add a note" present, note textarea absent,
aria-labelled Send present. -/
def noFieldPageW : ConnectPage := ⟨true, false, false, true, false, true, false⟩

def connectEnvNoFieldW : ConnectEnv := ⟨authEnvW, noFieldPageW⟩

/-- Witness message page: Message control present but both entry surfaces
absent. -/
def msgPageNoFieldW : MessagePage := ⟨true, false, false, true, true⟩

def msgEnvNoFieldW : MsgEnv := ⟨authEnvW, msgPageNoFieldW⟩

/-- C9 witness: the concrete missing-textarea connect run succeeds, and the
concrete missing-surface message run reports input-field-not-found. -/
theorem C9_connect_note_field_optional_witness :
    _authenticate_linkedin connectEnvNoFieldW.auth credsCookieW = (.ok ⟨true, none⟩, authTraceW) ∧
    (lit "Hello!").isEmpty = false ∧
    connectEnvNoFieldW.page.hasAddNote = true ∧
    connectEnvNoFieldW.page.hasNoteField = false ∧
    (send_connection_request connectEnvNoFieldW credsCookieW urlW (some (lit "Hello!"))).1 =
      ⟨true, none⟩ ∧
    (send_message msgEnvNoFieldW credsCookieW urlW (lit "Hi")).1 =
      ⟨false, some errMessageInputNotFound⟩ :=
  ⟨by rfl, by rfl, rfl, rfl,
   (C9_connect_note_field_optional connectEnvNoFieldW msgEnvNoFieldW credsCookieW credsCookieW
      urlW urlW (lit "Hello!") (lit "Hi") authTraceW authTraceW (by rfl) (by rfl) rfl rfl rfl rfl
      (by rfl) rfl rfl rfl).1,
   (C9_connect_note_field_optional connectEnvNoFieldW msgEnvNoFieldW credsCookieW credsCookieW
      urlW urlW (lit "Hello!") (lit "Hi") authTraceW authTraceW (by rfl) (by rfl) rfl rfl rfl rfl
      (by rfl) rfl rfl rfl).2.2.1⟩

/-! ## C10: personalized message fill -/

/-- Truthiness of a present string. -/
@[simp] theorem truthy_some (s : Str) : truthy (some s) = !s.isEmpty := rfl

/-- Truthiness of an absent string. -/
@[simp] theorem truthy_none : truthy none = false := rfl

/-- Lower-casing the default provider tag is the identity. -/
@[simp] theorem pyLower_google : pyLower (lit "google") = lit "google" := by decide

/-- With the google provider, the personalization client returns exactly the
post-processed provider output and one HTTP call. -/
theorem generate_google (llmEnv : LlmEnv) (mdl key : Str) (p : Prospect) (raw : Str)
    (hLlm : ∀ a b c d, llmEnv.google a b c d = Except.ok raw) :
    generate_personalized_note llmEnv ⟨lit "google", mdl, key⟩ p =
      (.ok (postprocess_note raw), [ExtCall.llmHttp]) := by
  simp [generate_personalized_note, hLlm,
    show lit "google" ≠ lit "anthropic" by decide,
    show lit "google" ≠ lit "openai" by decide]

/-- C10: in every message run with personalization enabled (cookie
credentials, google provider defaults, provider output `raw`), the text
actually filled into the message-entry surface is the personalization
client's output `postprocess_note raw` — whitespace-trimmed and truncated to
at most 300 characters — and it is the only fill of the whole run, so the
delivered message is the client's output rather than the caller's original
`message_text`, and is at most 300 characters even though `send_message`
itself applies no truncation. -/
theorem C10_personalized_message_fill
    (env : ExecEnv) (prompt : Str) (keys : Keys) (language : Option Str)
    (o : ExecOptions) (u m raw : Str) (atr : List DomAction)
    (hCookie : truthy keys.LINKEDIN_SESSION_COOKIE = true)
    (hKey : truthy keys.LLM_API_KEY = true)
    (hProv : keys.LLM_PROVIDER = none)
    (hUrl : env.extract_linkedin_url prompt = some u)
    (hAction : o.action = some (lit "message"))
    (hPers : o.personalize = some true)
    (hText : o.message_text = some m)
    (hm : m.isEmpty = false)
    (hLlm : ∀ a b c d, env.llm.google a b c d = Except.ok raw)
    (hAuth : _authenticate_linkedin env.msg.auth
        ⟨some (lit "cookie"), keys.LINKEDIN_SESSION_COOKIE, keys.LINKEDIN_EMAIL,
         keys.LINKEDIN_PASSWORD⟩ = (.ok ⟨true, none⟩, atr))
    (hBtn : env.msg.page.hasMessageBtn = true)
    (hCE : env.msg.page.hasContentEditable = true)
    (hSubmit : env.msg.page.hasSubmitBtn = true) :
    ExtCall.dom (DomAction.fill selContentEditable (postprocess_note raw)) ∈
      (execute env prompt keys language (some o)).calls ∧
    (∀ s t, ExtCall.dom (DomAction.fill s t) ∈ (execute env prompt keys language (some o)).calls →
      s = selContentEditable ∧ t = postprocess_note raw) ∧
    (postprocess_note raw).length ≤ 300 := by
  have hsend : send_message env.msg
      ⟨some (lit "cookie"), keys.LINKEDIN_SESSION_COOKIE, keys.LINKEDIN_EMAIL,
       keys.LINKEDIN_PASSWORD⟩ u (postprocess_note raw) =
      (⟨true, none⟩,
       atr ++ [DomAction.goto u, DomAction.waitNetworkIdle, DomAction.query selMessageBtn,
               DomAction.click selMessageBtn, DomAction.waitTimeout 2000,
               DomAction.query selContentEditable,
               DomAction.fill selContentEditable (postprocess_note raw),
               DomAction.waitTimeout 1000, DomAction.query selSubmitBtn,
               DomAction.click selSubmitBtn, DomAction.waitTimeout 3000,
               DomAction.browserClose]) := by
    simp [send_message, hAuth, hBtn, hCE, hSubmit]
  have hcalls : (execute env prompt keys language (some o)).calls =
      ExtCall.llmHttp ::
        (atr ++ [DomAction.goto u, DomAction.waitNetworkIdle, DomAction.query selMessageBtn,
                 DomAction.click selMessageBtn, DomAction.waitTimeout 2000,
                 DomAction.query selContentEditable,
                 DomAction.fill selContentEditable (postprocess_note raw),
                 DomAction.waitTimeout 1000, DomAction.query selSubmitBtn,
                 DomAction.click selSubmitBtn, DomAction.waitTimeout 3000,
                 DomAction.browserClose]).map ExtCall.dom := by
    have hgen : ∀ mdl key p, generate_personalized_note env.llm ⟨lit "google", mdl, key⟩ p =
        (.ok (postprocess_note raw), [ExtCall.llmHttp]) :=
      fun mdl key p => generate_google env.llm mdl key p raw hLlm
    rw [execute.eq_def]
    dsimp only []
    rw [hUrl]
    simp [hCookie, hKey, hProv, hAction, hPers, hText, hm, pyLower_google,
      runMessage, hgen, hsend, show ¬(lit "message" = lit "connect") by decide]
  have hAtr : atr = [] ∨
      atr = [DomAction.addCookies, DomAction.goto feedUrl, DomAction.waitNetworkIdle] := by
    have h := cookie_auth_trace env.msg.auth
      ⟨some (lit "cookie"), keys.LINKEDIN_SESSION_COOKIE, keys.LINKEDIN_EMAIL,
       keys.LINKEDIN_PASSWORD⟩ rfl
    rw [hAuth] at h
    exact h
  refine ⟨?_, ?_, postprocess_note_length_le raw⟩
  · rw [hcalls]
    simp
  · intro s t ht
    rw [hcalls] at ht
    rcases hAtr with h | h <;> subst h <;> simp at ht <;> exact ht

/-- The raw note returned by the witness google adapter. -/
def rawNoteW : Str :=
  lit "  Impressed by your work at TechCorp — would love to connect.  "

/-- Concrete key set for the personalized-message witness run. -/
def keysC10W : Keys :=
  ⟨some (lit "AQEDAtoken"), none, none, some (lit "sk-key"), none, none⟩

/-- Concrete options for the personalized-message witness run. -/
def optsC10W : ExecOptions :=
  ⟨some (lit "message"), some true, none, none, none,
   some (lit "Long draft message to be rewritten")⟩

/-- Witness message page with all controls present. -/
def msgPageFullW : MessagePage := ⟨true, true, false, true, false⟩

/-- Witness executor environment for the personalized-message run. -/
def execEnvC10W : ExecEnv :=
  ⟨fun _ => some urlW, fun _ => [], llmEnvW, connectEnvW, ⟨authEnvW, msgPageFullW⟩⟩

/-- C10 witness: in the concrete personalized message run, the text filled
into the message surface is the post-processed provider output, within the
300-character cap. -/
theorem C10_personalized_message_fill_witness :
    truthy keysC10W.LINKEDIN_SESSION_COOKIE = true ∧
    truthy keysC10W.LLM_API_KEY = true ∧
    keysC10W.LLM_PROVIDER = none ∧
    execEnvC10W.extract_linkedin_url (lit "message Jane") = some urlW ∧
    optsC10W.action = some (lit "message") ∧
    optsC10W.personalize = some true ∧
    optsC10W.message_text = some (lit "Long draft message to be rewritten") ∧
    (lit "Long draft message to be rewritten").isEmpty = false ∧
    (∀ a b c d, execEnvC10W.llm.google a b c d = Except.ok rawNoteW) ∧
    _authenticate_linkedin execEnvC10W.msg.auth
        ⟨some (lit "cookie"), keysC10W.LINKEDIN_SESSION_COOKIE, keysC10W.LINKEDIN_EMAIL,
         keysC10W.LINKEDIN_PASSWORD⟩ = (.ok ⟨true, none⟩, authTraceW) ∧
    execEnvC10W.msg.page.hasMessageBtn = true ∧
    execEnvC10W.msg.page.hasContentEditable = true ∧
    execEnvC10W.msg.page.hasSubmitBtn = true ∧
    ExtCall.dom (DomAction.fill selContentEditable (postprocess_note rawNoteW)) ∈
      (execute execEnvC10W (lit "message Jane") keysC10W none (some optsC10W)).calls ∧
    (postprocess_note rawNoteW).length ≤ 300 :=
  ⟨by rfl, by rfl, rfl, rfl, rfl, rfl, rfl, by rfl, fun a b c d => rfl, by rfl,
   rfl, rfl, rfl,
   (C10_personalized_message_fill execEnvC10W (lit "message Jane") keysC10W none optsC10W
      urlW (lit "Long draft message to be rewritten") rawNoteW authTraceW
      (by rfl) (by rfl) rfl rfl rfl rfl rfl (by rfl) (fun a b c d => rfl) (by rfl)
      rfl rfl rfl).1,
   (C10_personalized_message_fill execEnvC10W (lit "message Jane") keysC10W none optsC10W
      urlW (lit "Long draft message to be rewritten") rawNoteW authTraceW
      (by rfl) (by rfl) rfl rfl rfl rfl rfl (by rfl) (fun a b c d => rfl) (by rfl)
      rfl rfl rfl).2.2⟩
